import Mathlib

/-!
Verification of the agentic data pipeline core: a shallow embedding of the
workflow engine in src/agents/supervisor/graph.ts together with the four step
functions it wires up (classifier, retriever, generator, critic) and the state
model in src/core/state/types.ts.

The TypeScript code is dynamically typed at run time: collaborator responses
are parsed JSON accessed duck-typed, so the embedding models JavaScript values
(JSON trees, numbers with NaN, nullish coalescing, truthiness) explicitly.
Collaborator calls (the language-generation service and the hybrid-search
service) are external I/O; each call is modelled by its outcome, an
`Except JsThrown result` value supplied as an oracle input, and for the
language-generation calls whose text is fed to JSON.parse, by the parse
outcome `Except JsThrown Json` of that text.
-/

namespace Pipeline

/-! ## JavaScript value layer -/

/-- A parsed JSON value, as produced by JSON.parse. -/
inductive Json where
  | null
  | bool (b : Bool)
  | num (q : ℚ)
  | str (s : String)
  | arr (elems : List Json)
  | obj (fields : List (String × Json))
deriving Repr

/-- A JavaScript number value: either an actual rational or NaN. -/
inductive JsNum where
  | num (q : ℚ)
  | nan
deriving Repr, DecidableEq

/-- Numeric value of a decimal digit character, if it is one. -/
def decDigit (c : Char) : Option Nat :=
  if c.isDigit then some (c.toNat - Char.toNat '0') else none

/-- Reads a non-empty all-digit character list as a natural number. -/
def natOfDigits (cs : List Char) : Option Nat :=
  match cs with
  | [] => none
  | _ => cs.foldlM (fun acc c => (decDigit c).map (fun d => acc * 10 + d)) 0

/-- JavaScript string-to-number coercion, restricted to plain decimal literals
(optional sign, integer digits, optional fraction); the empty or
whitespace-only string coerces to 0 and anything else to NaN. The exotic forms
(hex, exponent, Infinity) never arise from the collaborator outputs modelled
here. -/
def jsStringToNumber (s : String) : JsNum :=
  let t := s.trim.toList
  match t with
  | [] => .num 0
  | _ =>
    let (sign, body) : ℚ × List Char :=
      match t with
      | '-' :: rest => (-1, rest)
      | '+' :: rest => (1, rest)
      | cs => (1, cs)
    match body.splitOn '.' with
    | [intPart] =>
      match natOfDigits intPart with
      | some n => .num (sign * n)
      | none => .nan
    | [intPart, fracPart] =>
      match natOfDigits (intPart ++ fracPart), intPart ++ fracPart with
      | some n, _ => .num (sign * n / (10 ^ fracPart.length))
      | none, _ => .nan
    | _ => .nan

/-- JavaScript ToNumber applied to the result of a property access
(`none` is undefined). Arrays and objects coerce through stringification and,
except for degenerate arrays no collaborator shape produces, yield NaN; the
model maps them to NaN. -/
def toNumber : Option Json → JsNum
  | none => .nan
  | some .null => .num 0
  | some (.bool b) => .num (if b then 1 else 0)
  | some (.num q) => .num q
  | some (.str s) => jsStringToNumber s
  | some (.arr _) => .nan
  | some (.obj _) => .nan

/-- Math.max on two JavaScript numbers: NaN-propagating. -/
def jsMax (a b : JsNum) : JsNum :=
  match a, b with
  | .num x, .num y => .num (max x y)
  | _, _ => .nan

/-- Math.min on two JavaScript numbers: NaN-propagating. -/
def jsMin (a b : JsNum) : JsNum :=
  match a, b with
  | .num x, .num y => .num (min x y)
  | _, _ => .nan

/-- The strict-less-than comparison on JavaScript numbers: false when either
side is NaN. -/
def jsLt (a b : JsNum) : Bool :=
  match a, b with
  | .num x, .num y => decide (x < y)
  | _, _ => false

/-- The greater-or-equal comparison on JavaScript numbers: false when either
side is NaN. -/
def jsGe (a b : JsNum) : Bool :=
  match a, b with
  | .num x, .num y => decide (y ≤ x)
  | _, _ => false

/-- Truthiness of a possibly-undefined JavaScript number: undefined, 0 and NaN
are falsy. -/
def jsTruthyNum : Option JsNum → Bool
  | none => false
  | some .nan => false
  | some (.num q) => decide (q ≠ 0)

/-- Coerces a possibly-undefined JavaScript number for a numeric comparison:
undefined becomes NaN. -/
def numOrNaN : Option JsNum → JsNum
  | none => .nan
  | some x => x

/-- Nullish coalescing `x ?? d` applied to a property-access result: the
default replaces undefined and null only. -/
def nullish (x : Option Json) (d : Json) : Json :=
  match x with
  | none => d
  | some .null => d
  | some v => v

/-- Looks a key up in a parsed JSON object; JSON.parse keeps the last of
duplicate keys, so the fold keeps the last binding. -/
def lookupField (fields : List (String × Json)) (key : String) : Option Json :=
  fields.foldl (fun acc kv => if kv.1 = key then some kv.2 else acc) none

/-- JavaScript property access `base.key` on a parsed JSON value: `.error`
models the TypeError thrown when the base is null; on a non-object base the
access yields undefined (`.ok none`). -/
def jsGetField : Json → String → Except Unit (Option Json)
  | .null, _ => .error ()
  | .obj fields, key => .ok (lookupField fields key)
  | _, _ => .ok none

/-- A value thrown by JavaScript code: an Error object carrying a message, or
any other thrown value. -/
inductive JsThrown where
  | error (message : String)
  | other (value : Json)
deriving Repr

/-! ## State model (src/core/state/types.ts) -/

/-- The five query-type labels of the TypeScript QueryType union. -/
inductive QueryType where
  | factual
  | analytical
  | comparative
  | vague
  | multi_hop
deriving Repr, DecidableEq

/-- The agent names of the TypeScript AgentName union. -/
inductive AgentName where
  | supervisor
  | classifier
  | retriever
  | generator
  | critic
deriving Repr, DecidableEq

/-- One entry of the append-only errors sequence. -/
structure AgentError where
  agent : AgentName
  message : String
  timestamp : String
deriving Repr, DecidableEq

/-- A retrieved chunk record; metadata is an opaque JSON object. -/
structure RetrievedChunk where
  chunkId : String
  content : String
  score : ℚ
  metadata : Option (List (String × Json)) := none
deriving Repr

/-- Conversation context attached to a request. -/
structure ConversationContext where
  previousQueries : Option (List String) := none
  previousResponses : Option (List String) := none
  sessionId : Option String := none
deriving Repr

/-- The AgentStateValues record threaded through the run. The TypeScript
types of queryType, needsRefinement and refinementReason are erased at run
time and the classifier and critic store raw parsed-JSON values in them, so
those fields hold `Json` values here; classificationConfidence and
qualityScore hold JavaScript numbers (possibly NaN). -/
structure AgentStateValues where
  query : String
  sessionId : String
  conversationId : Option String := none
  context : Option ConversationContext := none
  queryType : Option Json := none
  classificationConfidence : Option JsNum := none
  retrievedChunks : Option (List RetrievedChunk) := none
  retrievalScore : Option ℚ := none
  draftAnswer : Option String := none
  finalAnswer : Option String := none
  qualityScore : Option JsNum := none
  needsRefinement : Option Json := none
  refinementReason : Option Json := none
  currentAgent : Option AgentName := none
  iterations : Nat
  errors : List AgentError
deriving Repr

/-- createInitialState of src/core/state/types.ts. -/
def createInitialState (query : String) (sessionId : String)
    (context : Option ConversationContext := none) : AgentStateValues :=
  { query := query
    sessionId := sessionId
    context := context
    iterations := 0
    errors := [] }

/-! ## Classification step (src/agents/classifier/index.ts) -/

/-- The run-time shape of a ClassificationResult: the declared TypeScript
field types are erased, so queryType and reasoning are raw property-access
results and confidence is a JavaScript number. -/
structure ClassificationResult where
  queryType : Option Json
  confidence : JsNum
  reasoning : Option Json
deriving Repr

/-- The fallback classification returned when the collaborator text cannot be
parsed. -/
def defaultClassification : ClassificationResult :=
  { queryType := some (.str "vague")
    confidence := .num (1/2)
    reasoning := some (.str "Failed to parse classification, defaulting to vague") }

/-- The try block of classifyQuery around JSON.parse and the duck-typed field
reads: a parse failure, or the TypeError thrown by a property access on a
null parse, is caught and yields the default classification; otherwise the
parsed fields are read as-is and the confidence clamped by
Math.min(1, Math.max(0, confidence)). -/
def classifyParsed (parsed : Except JsThrown Json) : ClassificationResult :=
  match parsed with
  | .error _ => defaultClassification
  | .ok j =>
    match jsGetField j "queryType", jsGetField j "confidence",
        jsGetField j "reasoning" with
    | .ok qt, .ok conf, .ok reas =>
      { queryType := qt
        confidence := jsMin (.num 1) (jsMax (.num 0) (toNumber conf))
        reasoning := reas }
    | _, _, _ => defaultClassification

/-- classifyQuery: calls the language-generation collaborator (outcome given
as oracle: outer layer is the transport result of generateText, inner layer
the JSON.parse outcome of the returned text). A transport failure is not
caught and propagates; the try block around the parse is classifyParsed. -/
def classifyQuery (query : String)
    (outcome : Except JsThrown (Except JsThrown Json)) :
    Except JsThrown ClassificationResult :=
  let _ := query
  match outcome with
  | .error e => .error e
  | .ok parsed => .ok (classifyParsed parsed)

/-! ## Retrieval step (src/agents/retriever/index.ts, src/core/tools/rag-api.ts) -/

/-- One result of the hybrid-search collaborator (SearchResult of
src/core/tools/rag-api.ts). -/
structure SearchResult where
  chunk_id : String
  content : String
  hybrid_score : Option ℚ := none
  similarity_score : Option ℚ := none
  metadata : Option (List (String × Json)) := none
deriving Repr

/-- The hybrid-search collaborator response (HybridSearchResponse). The
retriever guards results and query_time_ms with nullish defaults, so the
model keeps them optional. -/
structure HybridSearchResponse where
  results : Option (List SearchResult)
  total : Option ℚ := none
  query_time_ms : Option ℚ := none
deriving Repr

/-- Options of retrieveDocuments. queryType holds the raw run-time value of
state.queryType. -/
structure RetrieveOptions where
  query : String
  queryType : Option Json := none
  topK : Option Nat := none
deriving Repr

/-- Result of retrieveDocuments. -/
structure RetrieveResult where
  chunks : List RetrievedChunk
  score : ℚ
  queryTimeMs : ℚ
deriving Repr

/-- The strict-equality test options.queryType === the string analytical,
used to select the retrieval weights. -/
def isAnalytical : Option Json → Bool
  | some (.str s) => decide (s = "analytical")
  | _ => false

/-- The body of the hybrid-search request built by retrieveDocuments: query,
top_k (defaulting to 5), and the weights selected from the query type. -/
structure HybridSearchRequest where
  query : String
  top_k : Nat
  vector_weight : ℚ
  text_weight : ℚ
deriving Repr

/-- The request retrieveDocuments sends to the search collaborator. -/
def hybridSearchRequest (options : RetrieveOptions) : HybridSearchRequest :=
  { query := options.query
    top_k := options.topK.getD 5
    vector_weight := if isAnalytical options.queryType then 6/10 else 7/10
    text_weight := if isAnalytical options.queryType then 4/10 else 3/10 }

/-- retrieveDocuments: sends the request above to the search collaborator
(outcome given as oracle) and, on success, maps each result to a chunk whose
score is hybrid_score, else similarity_score, else 0, and averages the chunk
scores by a fold (0 for an empty list). A collaborator failure propagates out
of retrieveDocuments itself; the retriever node catches it. -/
def retrieveDocuments (options : RetrieveOptions)
    (searchOutcome : Except JsThrown HybridSearchResponse) :
    Except JsThrown RetrieveResult :=
  let _ := hybridSearchRequest options
  match searchOutcome with
  | .error e => .error e
  | .ok response =>
    let chunks : List RetrievedChunk := (response.results.getD []).map (fun r =>
      { chunkId := r.chunk_id
        content := r.content
        score := r.hybrid_score.getD (r.similarity_score.getD 0)
        metadata := r.metadata })
    let avgScore : ℚ :=
      if chunks.length > 0 then
        (chunks.foldl (fun sum c => sum + c.score) 0) / chunks.length
      else 0
    .ok { chunks := chunks, score := avgScore, queryTimeMs := response.query_time_ms.getD 0 }

/-! ## Generation step (src/agents/generator/index.ts) -/

/-- Options of generateAnswer. -/
structure GenerateOptions where
  query : String
  chunks : List RetrievedChunk
  conversationContext : Option String := none
deriving Repr

/-- Result of generateAnswer. -/
structure GenerateResult where
  answer : String
  sources : List RetrievedChunk
  tokensUsed : Option Nat := none
deriving Repr

/-- The numbered context block generateAnswer builds from the chunks for the
collaborator prompt. -/
def contextText (chunks : List RetrievedChunk) : String :=
  String.intercalate "\n\n"
    (chunks.enum.map (fun ci => "[" ++ toString (ci.1 + 1) ++ "] " ++ ci.2.content))

/-- generateAnswer: asks the language-generation collaborator for an answer
over the context block (outcome given as oracle). The returned text is
accepted as-is with no validation or retry; a transport failure propagates
unhandled. -/
def generateAnswer (options : GenerateOptions)
    (outcome : Except JsThrown String) : Except JsThrown GenerateResult :=
  let _ := contextText options.chunks
  match outcome with
  | .error e => .error e
  | .ok text => .ok { answer := text, sources := options.chunks }

/-! ## Critique step (src/agents/critic/index.ts) -/

/-- Options of critiqueAnswer. -/
structure CritiqueOptions where
  query : String
  answer : String
  sources : List RetrievedChunk
deriving Repr

/-- The run-time shape of a CritiqueResult: qualityScore is a JavaScript
number; needsRefinement, refinementReason and scores hold raw values. -/
structure CritiqueResult where
  qualityScore : JsNum
  needsRefinement : Json
  refinementReason : Option Json
  scores : Json
deriving Repr

/-- The default five-dimension score object. -/
def defaultScores : Json :=
  .obj [("relevance", .num (1/2)), ("accuracy", .num (1/2)),
        ("completeness", .num (1/2)), ("clarity", .num (1/2)),
        ("sourceUsage", .num (1/2))]

/-- The fallback critique returned when the collaborator text cannot be
parsed. -/
def critiqueFallback : CritiqueResult :=
  { qualityScore := .num (1/2)
    needsRefinement := .bool true
    refinementReason := some (.str "Failed to parse critique response")
    scores := defaultScores }

/-- The try block of critiqueAnswer around JSON.parse and the duck-typed
field reads: a parse failure, or the TypeError thrown by property access on a
null parse, yields the fallback. Otherwise: qualityScore is the clamp
Math.min(1, Math.max(0, raw ?? 0.5)); needsRefinement is the raw field when
not nullish, else the JavaScript comparison raw qualityScore < 0.7 applied to
the raw, unclamped field (NaN and undefined compare false); refinementReason
is the raw field; scores is the raw field with the default object as nullish
fallback. -/
def critiqueParsed (parsed : Except JsThrown Json) : CritiqueResult :=
  match parsed with
  | .error _ => critiqueFallback
  | .ok j =>
    match jsGetField j "qualityScore", jsGetField j "needsRefinement",
        jsGetField j "refinementReason", jsGetField j "scores" with
    | .ok rawQuality, .ok rawNeeds, .ok rawReason, .ok rawScores =>
      { qualityScore :=
          jsMin (.num 1) (jsMax (.num 0)
            (toNumber (some (nullish rawQuality (.num (1/2))))))
        needsRefinement :=
          nullish rawNeeds (.bool (jsLt (toNumber rawQuality) (.num (7/10))))
        refinementReason := rawReason
        scores := nullish rawScores defaultScores }
    | _, _, _, _ => critiqueFallback

/-- critiqueAnswer: calls the language-generation collaborator (outcome given
as oracle as for classifyQuery). A transport failure propagates; the try
block around the parse is critiqueParsed. -/
def critiqueAnswer (options : CritiqueOptions)
    (outcome : Except JsThrown (Except JsThrown Json)) :
    Except JsThrown CritiqueResult :=
  let _ := options
  match outcome with
  | .error e => .error e
  | .ok parsed => .ok (critiqueParsed parsed)

/-! ## Workflow engine (src/agents/supervisor/graph.ts) -/

/-- The outcomes of the four collaborator calls for one run, as oracle
inputs. The generator and critic collaborators are called once per loop pass,
so their outcomes are indexed by the call number; `now` is the value
new Date().toISOString() yields when the retriever records a failure. -/
structure Collaborators where
  classifyOutcome : Except JsThrown (Except JsThrown Json)
  searchOutcome : Except JsThrown HybridSearchResponse
  generateOutcome : Nat → Except JsThrown String
  critiqueOutcome : Nat → Except JsThrown (Except JsThrown Json)
  now : String

/-- MAX_ITERATIONS of src/agents/supervisor/graph.ts. -/
def MAX_ITERATIONS : Nat := 2

/-- classifierNode: partial update {queryType, classificationConfidence,
currentAgent}, merged here directly into the state; a classifyQuery transport
failure propagates. -/
def classifierNode (c : Collaborators) (s : AgentStateValues) :
    Except JsThrown AgentStateValues :=
  match classifyQuery s.query c.classifyOutcome with
  | .error e => .error e
  | .ok result =>
    .ok { s with
      queryType := result.queryType
      classificationConfidence := some result.confidence
      currentAgent := some .classifier }

/-- retrieverNode: on success the partial update {retrievedChunks,
retrievalScore, currentAgent}; any error thrown by retrieveDocuments is
caught and the node instead returns empty chunks, score 0, and the errors
sequence with one appended retriever entry whose message is the Error message
(or the fixed text for a non-Error thrown value). -/
def retrieverNode (c : Collaborators) (s : AgentStateValues) : AgentStateValues :=
  match retrieveDocuments
      { query := s.query, queryType := s.queryType, topK := some 5 }
      c.searchOutcome with
  | .ok result =>
    { s with
      retrievedChunks := some result.chunks
      retrievalScore := some result.score
      currentAgent := some .retriever }
  | .error err =>
    { s with
      retrievedChunks := some []
      retrievalScore := some 0
      currentAgent := some .retriever
      errors := s.errors ++
        [{ agent := .retriever
           message := match err with
             | .error msg => msg
             | .other _ => "Retrieval failed"
           timestamp := c.now }] }

/-- generatorNode: partial update {draftAnswer, finalAnswer, currentAgent},
with draftAnswer and finalAnswer both set to the returned answer; a
generateAnswer transport failure propagates. -/
def generatorNode (c : Collaborators) (callIndex : Nat) (s : AgentStateValues) :
    Except JsThrown AgentStateValues :=
  match generateAnswer
      { query := s.query, chunks := s.retrievedChunks.getD [] }
      (c.generateOutcome callIndex) with
  | .error e => .error e
  | .ok result =>
    .ok { s with
      draftAnswer := some result.answer
      finalAnswer := some result.answer
      currentAgent := some .generator }

/-- criticNode: partial update {qualityScore, needsRefinement,
refinementReason, currentAgent, iterations = iterations + 1}; a
critiqueAnswer transport failure propagates. -/
def criticNode (c : Collaborators) (callIndex : Nat) (s : AgentStateValues) :
    Except JsThrown AgentStateValues :=
  match critiqueAnswer
      { query := s.query
        answer := s.draftAnswer.getD ""
        sources := s.retrievedChunks.getD [] }
      (c.critiqueOutcome callIndex) with
  | .error e => .error e
  | .ok result =>
    .ok { s with
      qualityScore := some result.qualityScore
      needsRefinement := some result.needsRefinement
      refinementReason := result.refinementReason
      currentAgent := some .critic
      iterations := s.iterations + 1 }

/-- The target of the conditional edge after the critic. -/
inductive Route where
  | END
  | generator
deriving Repr, DecidableEq

/-- routeAfterCritic: the first test is the JavaScript condition
state.qualityScore && state.qualityScore >= 0.7 (the truthiness test makes
an undefined, zero or NaN score fall through); the second is
state.iterations >= MAX_ITERATIONS. -/
def routeAfterCritic (s : AgentStateValues) : Route :=
  if jsTruthyNum s.qualityScore && jsGe (numOrNaN s.qualityScore) (.num (7/10)) then
    .END
  else if s.iterations ≥ MAX_ITERATIONS then
    .END
  else
    .generator

/-- The nodes of the graph built by createAgentGraph. -/
inductive GraphNode where
  | classifier
  | retriever
  | generator
  | critic
deriving Repr, DecidableEq

/-- The edges of the graph built by createAgentGraph: START goes to the
classifier; classifier, retriever and generator have unconditional
successors; the critic routes through routeAfterCritic, with END modelled as
`none`. -/
def nextNode : GraphNode → AgentStateValues → Option GraphNode
  | .classifier, _ => some .retriever
  | .retriever, _ => some .generator
  | .generator, _ => some .critic
  | .critic, s =>
    match routeAfterCritic s with
    | .END => none
    | .generator => some .generator

/-- Executes one node on the state; callIndex is the number of earlier
executions of the same node in this run, selecting the matching collaborator
outcome. -/
def runNode (c : Collaborators) (node : GraphNode) (callIndex : Nat)
    (s : AgentStateValues) : Except JsThrown AgentStateValues :=
  match node with
  | .classifier => classifierNode c s
  | .retriever => .ok (retrieverNode c s)
  | .generator => generatorNode c callIndex s
  | .critic => criticNode c callIndex s

/-- Runs the graph from a node, threading the state and recording the trace
of executed nodes; `none` marks fuel exhaustion (the theorems show the fixed
fuel below always suffices), `some (.error e)` a run rejected by a propagated
collaborator error, and `some (.ok (s, trace))` a terminal state. -/
def runFrom (c : Collaborators) :
    Nat → GraphNode → AgentStateValues → List GraphNode →
    Option (Except JsThrown (AgentStateValues × List GraphNode))
  | 0, _, _, _ => none
  | fuel + 1, node, s, trace =>
    match runNode c node (trace.count node) s with
    | .error e => some (.error e)
    | .ok s1 =>
      match nextNode node s1 with
      | none => some (.ok (s1, trace ++ [node]))
      | some next => runFrom c fuel next s1 (trace ++ [node])

/-- Fuel covering the longest possible run: classifier, retriever, and
MAX_ITERATIONS generator-critic passes. -/
def engineFuel : Nat := 2 + 2 * MAX_ITERATIONS

/-- Invoking the compiled graph on an initial state: execution starts at the
classifier. -/
def runAgentGraph (c : Collaborators) (s0 : AgentStateValues) (fuel : Nat) :
    Option (Except JsThrown (AgentStateValues × List GraphNode)) :=
  runFrom c fuel .classifier s0 []

/-! ## Basic lemmas about the nodes and the interpreter -/

/-- The partial update returned by the classifier node, merged into the
state. -/
def classifierApply (r : ClassificationResult) (s : AgentStateValues) :
    AgentStateValues :=
  { s with
    queryType := r.queryType
    classificationConfidence := some r.confidence
    currentAgent := some .classifier }

/-- The partial update returned by the generator node, merged into the
state. -/
def generatorApply (answer : String) (s : AgentStateValues) : AgentStateValues :=
  { s with
    draftAnswer := some answer
    finalAnswer := some answer
    currentAgent := some .generator }

/-- The partial update returned by the critic node, merged into the state. -/
def criticApply (r : CritiqueResult) (s : AgentStateValues) : AgentStateValues :=
  { s with
    qualityScore := some r.qualityScore
    needsRefinement := some r.needsRefinement
    refinementReason := r.refinementReason
    currentAgent := some .critic
    iterations := s.iterations + 1 }

theorem runFrom_zero (c : Collaborators) (node : GraphNode) (s : AgentStateValues)
    (trace : List GraphNode) : runFrom c 0 node s trace = none := rfl

theorem runFrom_succ (c : Collaborators) (fuel : Nat) (node : GraphNode)
    (s : AgentStateValues) (trace : List GraphNode) :
    runFrom c (fuel + 1) node s trace =
      match runNode c node (trace.count node) s with
      | .error e => some (.error e)
      | .ok s1 =>
        match nextNode node s1 with
        | none => some (.ok (s1, trace ++ [node]))
        | some next => runFrom c fuel next s1 (trace ++ [node]) := rfl

theorem classifierNode_of_ok (c : Collaborators) (s : AgentStateValues)
    (p : Except JsThrown Json) (h : c.classifyOutcome = .ok p) :
    classifierNode c s = .ok (classifierApply (classifyParsed p) s) := by
  simp [classifierNode, classifyQuery, classifierApply, h]

theorem classifierNode_of_error (c : Collaborators) (s : AgentStateValues)
    (e : JsThrown) (h : c.classifyOutcome = .error e) :
    classifierNode c s = .error e := by
  simp [classifierNode, classifyQuery, h]

/-- The message recorded for a caught thrown value: the Error message, or the
fixed text for a non-Error value (the instanceof test in the retriever
node). -/
def thrownMessage (err : JsThrown) : String :=
  match err with
  | .error msg => msg
  | .other _ => "Retrieval failed"

theorem retrieverNode_of_error (c : Collaborators) (s : AgentStateValues)
    (err : JsThrown) (h : c.searchOutcome = .error err) :
    retrieverNode c s =
      { s with
        retrievedChunks := some []
        retrievalScore := some 0
        currentAgent := some .retriever
        errors := s.errors ++
          [{ agent := .retriever
             message := thrownMessage err
             timestamp := c.now }] } := by
  cases err <;> simp [retrieverNode, retrieveDocuments, thrownMessage, h]

/-- The retriever node never touches the fields owned by other steps. -/
theorem retrieverNode_preserves (c : Collaborators) (s : AgentStateValues) :
    (retrieverNode c s).query = s.query ∧
    (retrieverNode c s).sessionId = s.sessionId ∧
    (retrieverNode c s).queryType = s.queryType ∧
    (retrieverNode c s).classificationConfidence = s.classificationConfidence ∧
    (retrieverNode c s).draftAnswer = s.draftAnswer ∧
    (retrieverNode c s).finalAnswer = s.finalAnswer ∧
    (retrieverNode c s).qualityScore = s.qualityScore ∧
    (retrieverNode c s).iterations = s.iterations := by
  unfold retrieverNode
  cases retrieveDocuments { query := s.query, queryType := s.queryType, topK := some 5 }
      c.searchOutcome <;> simp

theorem generatorNode_of_ok (c : Collaborators) (i : Nat) (s : AgentStateValues)
    (a : String) (h : c.generateOutcome i = .ok a) :
    generatorNode c i s = .ok (generatorApply a s) := by
  simp [generatorNode, generateAnswer, generatorApply, h]

theorem generatorNode_of_error (c : Collaborators) (i : Nat) (s : AgentStateValues)
    (e : JsThrown) (h : c.generateOutcome i = .error e) :
    generatorNode c i s = .error e := by
  simp [generatorNode, generateAnswer, h]

theorem criticNode_of_ok (c : Collaborators) (i : Nat) (s : AgentStateValues)
    (parsed : Except JsThrown Json) (h : c.critiqueOutcome i = .ok parsed) :
    criticNode c i s = .ok (criticApply (critiqueParsed parsed) s) := by
  simp [criticNode, critiqueAnswer, criticApply, h]

theorem criticNode_of_error (c : Collaborators) (i : Nat) (s : AgentStateValues)
    (e : JsThrown) (h : c.critiqueOutcome i = .error e) :
    criticNode c i s = .error e := by
  simp [criticNode, critiqueAnswer, h]

theorem routeAfterCritic_generator_iterations (s : AgentStateValues)
    (h : routeAfterCritic s = .generator) : s.iterations < MAX_ITERATIONS := by
  unfold routeAfterCritic at h
  split at h
  · simp at h
  · split at h
    · simp at h
    · omega

theorem nextNode_critic_none (s : AgentStateValues) :
    nextNode .critic s = none ↔ routeAfterCritic s = .END := by
  unfold nextNode
  cases h : routeAfterCritic s <;> simp [h]

theorem nextNode_critic_some (s : AgentStateValues) :
    nextNode .critic s = some .generator ↔ routeAfterCritic s = .generator := by
  unfold nextNode
  cases h : routeAfterCritic s <;> simp [h]

theorem count_append_one (trace : List GraphNode) (a b : GraphNode) :
    (trace ++ [b]).count a = trace.count a + (if b = a then 1 else 0) := by
  simp [List.count_append, List.count_cons]

/-! ## Step-shape lemmas for the interpreter -/

theorem runFrom_classifier_error (c : Collaborators) (fuel : Nat)
    (s : AgentStateValues) (trace : List GraphNode) (e : JsThrown)
    (h : c.classifyOutcome = .error e) :
    runFrom c (fuel + 1) .classifier s trace = some (.error e) := by
  rw [runFrom_succ,
    show runNode c .classifier (trace.count .classifier) s = classifierNode c s from rfl,
    classifierNode_of_error c s e h]

theorem runFrom_classifier_ok (c : Collaborators) (fuel : Nat)
    (s : AgentStateValues) (trace : List GraphNode) (p : Except JsThrown Json)
    (h : c.classifyOutcome = .ok p) :
    runFrom c (fuel + 1) .classifier s trace =
      runFrom c fuel .retriever (classifierApply (classifyParsed p) s)
        (trace ++ [.classifier]) := by
  rw [runFrom_succ,
    show runNode c .classifier (trace.count .classifier) s = classifierNode c s from rfl,
    classifierNode_of_ok c s p h]
  rfl

theorem runFrom_retriever (c : Collaborators) (fuel : Nat)
    (s : AgentStateValues) (trace : List GraphNode) :
    runFrom c (fuel + 1) .retriever s trace =
      runFrom c fuel .generator (retrieverNode c s) (trace ++ [.retriever]) := by
  rw [runFrom_succ]
  rfl

theorem runFrom_generator_error (c : Collaborators) (fuel : Nat)
    (s : AgentStateValues) (trace : List GraphNode) (e : JsThrown)
    (h : c.generateOutcome (trace.count .generator) = .error e) :
    runFrom c (fuel + 1) .generator s trace = some (.error e) := by
  rw [runFrom_succ,
    show runNode c .generator (trace.count .generator) s
      = generatorNode c (trace.count .generator) s from rfl,
    generatorNode_of_error c _ s e h]

theorem runFrom_generator_ok (c : Collaborators) (fuel : Nat)
    (s : AgentStateValues) (trace : List GraphNode) (a : String)
    (h : c.generateOutcome (trace.count .generator) = .ok a) :
    runFrom c (fuel + 1) .generator s trace =
      runFrom c fuel .critic (generatorApply a s) (trace ++ [.generator]) := by
  rw [runFrom_succ,
    show runNode c .generator (trace.count .generator) s
      = generatorNode c (trace.count .generator) s from rfl,
    generatorNode_of_ok c _ s a h]
  rfl

theorem runFrom_critic_error (c : Collaborators) (fuel : Nat)
    (s : AgentStateValues) (trace : List GraphNode) (e : JsThrown)
    (h : c.critiqueOutcome (trace.count .critic) = .error e) :
    runFrom c (fuel + 1) .critic s trace = some (.error e) := by
  rw [runFrom_succ,
    show runNode c .critic (trace.count .critic) s
      = criticNode c (trace.count .critic) s from rfl,
    criticNode_of_error c _ s e h]

theorem runFrom_critic_ok (c : Collaborators) (fuel : Nat)
    (s : AgentStateValues) (trace : List GraphNode) (parsed : Except JsThrown Json)
    (h : c.critiqueOutcome (trace.count .critic) = .ok parsed) :
    runFrom c (fuel + 1) .critic s trace =
      match routeAfterCritic (criticApply (critiqueParsed parsed) s) with
      | .END => some (.ok (criticApply (critiqueParsed parsed) s, trace ++ [.critic]))
      | .generator =>
        runFrom c fuel .generator (criticApply (critiqueParsed parsed) s)
          (trace ++ [.critic]) := by
  rw [runFrom_succ,
    show runNode c .critic (trace.count .critic) s
      = criticNode c (trace.count .critic) s from rfl,
    criticNode_of_ok c _ s parsed h]
  cases hr : routeAfterCritic (criticApply (critiqueParsed parsed) s) <;>
    simp [nextNode, hr]

/-! ## Termination of the generator-critic loop -/

/-- Four fuel units always complete the loop from the generator: each pass
consumes two, the iteration counter strictly increases per critic execution,
and the route leaves once it reaches MAX_ITERATIONS, so a second pass is the
last one possible. -/
theorem runFrom_generator_four_isSome (c : Collaborators) (s : AgentStateValues)
    (trace : List GraphNode) : (runFrom c 4 .generator s trace).isSome := by
  cases hg0 : c.generateOutcome (trace.count .generator) with
  | error e =>
    rw [show (4 : Nat) = 3 + 1 from rfl, runFrom_generator_error c 3 s trace e hg0]
    rfl
  | ok a0 =>
    rw [show (4 : Nat) = 3 + 1 from rfl, runFrom_generator_ok c 3 s trace a0 hg0]
    cases hc0 : c.critiqueOutcome ((trace ++ [GraphNode.generator]).count .critic) with
    | error e =>
      rw [show (3 : Nat) = 2 + 1 from rfl, runFrom_critic_error c 2 _ _ e hc0]
      rfl
    | ok p0 =>
      rw [show (3 : Nat) = 2 + 1 from rfl, runFrom_critic_ok c 2 _ _ p0 hc0]
      cases hr : routeAfterCritic (criticApply (critiqueParsed p0) (generatorApply a0 s)) with
      | END => simp
      | generator =>
        simp only
        cases hg1 : c.generateOutcome
            (((trace ++ [GraphNode.generator]) ++ [GraphNode.critic]).count .generator) with
        | error e =>
          rw [show (2 : Nat) = 1 + 1 from rfl, runFrom_generator_error c 1 _ _ e hg1]
          rfl
        | ok a1 =>
          rw [show (2 : Nat) = 1 + 1 from rfl, runFrom_generator_ok c 1 _ _ a1 hg1]
          cases hc1 : c.critiqueOutcome
              ((((trace ++ [GraphNode.generator]) ++ [GraphNode.critic])
                ++ [GraphNode.generator]).count .critic) with
          | error e =>
            rw [show (1 : Nat) = 0 + 1 from rfl, runFrom_critic_error c 0 _ _ e hc1]
            rfl
          | ok p1 =>
            rw [show (1 : Nat) = 0 + 1 from rfl, runFrom_critic_ok c 0 _ _ p1 hc1]
            cases hr2 : routeAfterCritic (criticApply (critiqueParsed p1)
                (generatorApply a1 (criticApply (critiqueParsed p0) (generatorApply a0 s)))) with
            | END => simp
            | generator =>
              exfalso
              have hlt := routeAfterCritic_generator_iterations _ hr2
              have : (criticApply (critiqueParsed p1)
                  (generatorApply a1 (criticApply (critiqueParsed p0)
                    (generatorApply a0 s)))).iterations = s.iterations + 2 := rfl
              rw [this] at hlt
              unfold MAX_ITERATIONS at hlt
              omega

/-! ## Invariants of the generator-critic loop -/

/-- Every terminal state reached from inside the loop: preserves the fields
owned by the classifier and the retriever and the errors sequence, executes
neither the classifier nor the retriever again, advances the iteration
counter exactly once per critic execution, keeps it at or below
max (entry + 1) MAX_ITERATIONS, exits only on the END route, keeps
draftAnswer and finalAnswer in lockstep, and carries the quality score of the
last critique result. -/
theorem runFrom_loop_ok (fuel : Nat) :
    ∀ (c : Collaborators) (node : GraphNode) (s : AgentStateValues)
      (trace : List GraphNode) (s' : AgentStateValues) (trace' : List GraphNode),
    node = .generator ∨ node = .critic →
    runFrom c fuel node s trace = some (.ok (s', trace')) →
    s'.query = s.query ∧
    s'.sessionId = s.sessionId ∧
    s'.errors = s.errors ∧
    s'.queryType = s.queryType ∧
    s'.classificationConfidence = s.classificationConfidence ∧
    s'.retrievedChunks = s.retrievedChunks ∧
    s'.retrievalScore = s.retrievalScore ∧
    trace'.count .classifier = trace.count .classifier ∧
    trace'.count .retriever = trace.count .retriever ∧
    s'.iterations + trace.count .critic = s.iterations + trace'.count .critic ∧
    s'.iterations ≤ max (s.iterations + 1) MAX_ITERATIONS ∧
    routeAfterCritic s' = .END ∧
    (s.finalAnswer = s.draftAnswer → s'.finalAnswer = s'.draftAnswer) ∧
    (s.finalAnswer.isSome → s'.finalAnswer.isSome) ∧
    (node = .generator → s'.finalAnswer.isSome ∧ s'.finalAnswer = s'.draftAnswer) ∧
    (∃ k parsed, c.critiqueOutcome k = .ok parsed ∧
      s'.qualityScore = some (critiqueParsed parsed).qualityScore) := by
  induction fuel with
  | zero =>
    intro c node s trace s' trace' _ hrun
    rw [runFrom_zero] at hrun
    cases hrun
  | succ fuel ih =>
    intro c node s trace s' trace' hnode hrun
    rcases hnode with hnode | hnode <;> subst hnode
    · -- the generator node
      cases hg : c.generateOutcome (trace.count .generator) with
      | error e =>
        rw [runFrom_generator_error c fuel s trace e hg] at hrun
        cases hrun
      | ok a =>
        rw [runFrom_generator_ok c fuel s trace a hg] at hrun
        obtain ⟨hq, hsid, herr, hqt, hcc, hrc, hrs, hn1, hn2, hiter, hbound,
          hroute, hlock, hsome, _, hqual⟩ :=
          ih c .critic (generatorApply a s) (trace ++ [.generator]) s' trace'
            (Or.inr rfl) hrun
        refine ⟨hq, hsid, herr, hqt, hcc, hrc, hrs, ?_, ?_, ?_, hbound, hroute,
          ?_, ?_, ?_, hqual⟩
        · rw [hn1, count_append_one]
          simp
        · rw [hn2, count_append_one]
          simp
        · rw [count_append_one] at hiter
          simp only [generatorApply] at hiter
          simp at hiter
          exact hiter
        · intro _
          exact hlock rfl
        · intro _
          exact hsome rfl
        · intro _
          exact ⟨hsome rfl, hlock rfl⟩
    · -- the critic node
      cases hc : c.critiqueOutcome (trace.count .critic) with
      | error e =>
        rw [runFrom_critic_error c fuel s trace e hc] at hrun
        cases hrun
      | ok parsed =>
        rw [runFrom_critic_ok c fuel s trace parsed hc] at hrun
        cases hr : routeAfterCritic (criticApply (critiqueParsed parsed) s) with
        | END =>
          rw [hr] at hrun
          simp only [Option.some_inj] at hrun
          obtain ⟨hs, ht⟩ := (by
            cases hrun
            exact ⟨rfl, rfl⟩ :
              criticApply (critiqueParsed parsed) s = s' ∧ trace ++ [.critic] = trace')
          subst hs
          subst ht
          refine ⟨rfl, rfl, rfl, rfl, rfl, rfl, rfl, ?_, ?_, ?_, ?_, hr,
            fun h => h, fun h => h, ?_, ?_⟩
          · rw [count_append_one]
            simp
          · rw [count_append_one]
            simp
          · rw [count_append_one]
            simp only [criticApply]
            simp
            omega
          · exact le_max_left _ _
          · intro h
            cases h
          · exact ⟨trace.count .critic, parsed, hc, rfl⟩
        | generator =>
          rw [hr] at hrun
          obtain ⟨hq, hsid, herr, hqt, hcc, hrc, hrs, hn1, hn2, hiter, hbound,
            hroute, hlock, hsome, hgen, hqual⟩ :=
            ih c .generator (criticApply (critiqueParsed parsed) s)
              (trace ++ [.critic]) s' trace' (Or.inl rfl) hrun
          have hlt := routeAfterCritic_generator_iterations _ hr
          have hit : (criticApply (critiqueParsed parsed) s).iterations
              = s.iterations + 1 := rfl
          rw [hit] at hlt hbound
          unfold MAX_ITERATIONS at hlt
          refine ⟨hq, hsid, herr, hqt, hcc, hrc, hrs, ?_, ?_, ?_, ?_, hroute,
            ?_, ?_, ?_, hqual⟩
          · rw [hn1, count_append_one]
            simp
          · rw [hn2, count_append_one]
            simp
          · rw [count_append_one] at hiter
            simp only [criticApply] at hiter
            simp at hiter
            omega
          · unfold MAX_ITERATIONS at hbound ⊢
            have h0 : s.iterations = 0 := by omega
            rw [h0] at hbound ⊢
            simpa using hbound
          · intro h
            exact hlock h
          · intro h
            exact hsome h
          · intro h
            cases h

/-! ## Full-run lemmas -/

theorem retrieverNode_iterations (c : Collaborators) (s : AgentStateValues) :
    (retrieverNode c s).iterations = s.iterations :=
  (retrieverNode_preserves c s).2.2.2.2.2.2.2

theorem retrieverNode_queryType (c : Collaborators) (s : AgentStateValues) :
    (retrieverNode c s).queryType = s.queryType :=
  (retrieverNode_preserves c s).2.2.1

/-- Every terminal state of a full run factors through the classifier, the
retriever, and then the generator-critic loop entered with the trace holding
one classifier and one retriever execution. -/
theorem runAgentGraph_ok_decompose (c : Collaborators) (s0 : AgentStateValues)
    (fuel : Nat) (s' : AgentStateValues) (trace' : List GraphNode)
    (h : runAgentGraph c s0 fuel = some (.ok (s', trace'))) :
    ∃ fuel2 p, fuel = fuel2 + 2 ∧ c.classifyOutcome = .ok p ∧
      runFrom c fuel2 .generator
        (retrieverNode c (classifierApply (classifyParsed p) s0))
        [.classifier, .retriever] = some (.ok (s', trace')) := by
  unfold runAgentGraph at h
  match fuel with
  | 0 =>
    rw [runFrom_zero] at h
    cases h
  | 1 =>
    cases hp : c.classifyOutcome with
    | error e =>
      rw [show (1 : Nat) = 0 + 1 from rfl, runFrom_classifier_error c 0 s0 [] e hp] at h
      cases h
    | ok p =>
      rw [show (1 : Nat) = 0 + 1 from rfl, runFrom_classifier_ok c 0 s0 [] p hp,
        runFrom_zero] at h
      cases h
  | fuel2 + 2 =>
    cases hp : c.classifyOutcome with
    | error e =>
      rw [show fuel2 + 2 = (fuel2 + 1) + 1 from rfl,
        runFrom_classifier_error c (fuel2 + 1) s0 [] e hp] at h
      cases h
    | ok p =>
      rw [show fuel2 + 2 = (fuel2 + 1) + 1 from rfl,
        runFrom_classifier_ok c (fuel2 + 1) s0 [] p hp, runFrom_retriever] at h
      exact ⟨fuel2, p, rfl, rfl, h⟩

/-- The engine always terminates within the fixed fuel, whatever the
collaborators do. -/
theorem runAgentGraph_isSome (c : Collaborators) (s0 : AgentStateValues) :
    (runAgentGraph c s0 engineFuel).isSome := by
  unfold runAgentGraph
  cases hp : c.classifyOutcome with
  | error e =>
    rw [show engineFuel = 5 + 1 from rfl, runFrom_classifier_error c 5 s0 [] e hp]
    rfl
  | ok p =>
    rw [show engineFuel = 5 + 1 from rfl, runFrom_classifier_ok c 5 s0 [] p hp,
      show (5 : Nat) = 4 + 1 from rfl, runFrom_retriever]
    exact runFrom_generator_four_isSome c _ _

/-- When neither the generator nor the critic collaborator throws, the loop
reaches a terminal state (rather than a rejected run). -/
theorem runFrom_generator_four_ok (c : Collaborators) (s : AgentStateValues)
    (trace : List GraphNode)
    (hg : ∀ n a, c.generateOutcome n ≠ .error a)
    (hc : ∀ n a, c.critiqueOutcome n ≠ .error a) :
    ∃ s' trace', runFrom c 4 .generator s trace = some (.ok (s', trace')) := by
  cases hg0 : c.generateOutcome (trace.count .generator) with
  | error e => exact absurd hg0 (hg _ e)
  | ok a0 =>
    rw [show (4 : Nat) = 3 + 1 from rfl, runFrom_generator_ok c 3 s trace a0 hg0]
    cases hc0 : c.critiqueOutcome ((trace ++ [GraphNode.generator]).count .critic) with
    | error e => exact absurd hc0 (hc _ e)
    | ok p0 =>
      rw [show (3 : Nat) = 2 + 1 from rfl, runFrom_critic_ok c 2 _ _ p0 hc0]
      cases hr : routeAfterCritic (criticApply (critiqueParsed p0) (generatorApply a0 s)) with
      | END => exact ⟨_, _, rfl⟩
      | generator =>
        simp only
        cases hg1 : c.generateOutcome
            (((trace ++ [GraphNode.generator]) ++ [GraphNode.critic]).count .generator) with
        | error e => exact absurd hg1 (hg _ e)
        | ok a1 =>
          rw [show (2 : Nat) = 1 + 1 from rfl, runFrom_generator_ok c 1 _ _ a1 hg1]
          cases hc1 : c.critiqueOutcome
              ((((trace ++ [GraphNode.generator]) ++ [GraphNode.critic])
                ++ [GraphNode.generator]).count .critic) with
          | error e => exact absurd hc1 (hc _ e)
          | ok p1 =>
            rw [show (1 : Nat) = 0 + 1 from rfl, runFrom_critic_ok c 0 _ _ p1 hc1]
            cases hr2 : routeAfterCritic (criticApply (critiqueParsed p1)
                (generatorApply a1 (criticApply (critiqueParsed p0)
                  (generatorApply a0 s)))) with
            | END => exact ⟨_, _, rfl⟩
            | generator =>
              exfalso
              have hlt := routeAfterCritic_generator_iterations _ hr2
              have heq : (criticApply (critiqueParsed p1)
                  (generatorApply a1 (criticApply (critiqueParsed p0)
                    (generatorApply a0 s)))).iterations = s.iterations + 2 := rfl
              rw [heq] at hlt
              unfold MAX_ITERATIONS at hlt
              omega

/-- When the classification collaborator succeeds and neither the generator
nor the critic collaborator throws, the full run reaches a terminal state. -/
theorem runAgentGraph_all_ok (c : Collaborators) (s0 : AgentStateValues)
    (p : Except JsThrown Json) (hp : c.classifyOutcome = .ok p)
    (hg : ∀ n a, c.generateOutcome n ≠ .error a)
    (hc : ∀ n a, c.critiqueOutcome n ≠ .error a) :
    ∃ s' trace',
      runAgentGraph c s0 engineFuel = some (.ok (s', trace')) := by
  unfold runAgentGraph
  rw [show engineFuel = 5 + 1 from rfl, runFrom_classifier_ok c 5 s0 [] p hp,
    show (5 : Nat) = 4 + 1 from rfl, runFrom_retriever]
  exact runFrom_generator_four_ok c _ _ hg hc

/-! ## Evaluation helpers for concrete critique objects -/

/-- Evaluates the critique try block on a parsed object holding only a
numeric qualityScore in [0, 1]: the clamp is the identity, the refinement
flag is derived from the raw comparison, and the other fields take their
defaults. -/
theorem critiqueParsed_score_obj (q : ℚ) (b : Bool) (h0 : 0 ≤ q) (h1 : q ≤ 1)
    (hb : decide (q < 7/10) = b) :
    critiqueParsed (.ok (Json.obj [("qualityScore", Json.num q)])) =
      { qualityScore := .num q
        needsRefinement := .bool b
        refinementReason := none
        scores := defaultScores } := by
  unfold critiqueParsed
  simp [jsGetField, lookupField, nullish, toNumber, jsMin, jsMax, jsLt, hb,
    max_eq_right h0, min_eq_right h1]

/-- The route after the critic, evaluated on a state whose quality score is a
nonzero rational: the truthiness test passes and the decision reduces to the
two numeric comparisons. -/
theorem routeAfterCritic_eval (s : AgentStateValues) (q : ℚ)
    (h : s.qualityScore = some (.num q)) (hq : q ≠ 0) :
    routeAfterCritic s =
      if 7/10 ≤ q then .END
      else if s.iterations ≥ MAX_ITERATIONS then .END else .generator := by
  unfold routeAfterCritic
  rw [h]
  simp [jsTruthyNum, numOrNaN, jsGe, hq]

/-! ## Concrete collaborator behaviors used by the witnesses -/

/-- Deterministic, always-successful collaborators: the classification parses
to a bare query-type label, the search returns no results, and the critique
always scores 0.5 (the forced-termination scenario of the spec). -/
def happyCollabs : Collaborators :=
  { classifyOutcome := .ok (.ok (.obj [("queryType", .str "factual")]))
    searchOutcome := .ok { results := some [], total := some 0, query_time_ms := some 0 }
    generateOutcome := fun _ => .ok "generated answer"
    critiqueOutcome := fun _ => .ok (.ok (.obj [("qualityScore", .num (1/2))]))
    now := "2025-01-01T00:00:00.000Z" }

/-- The terminal state of the run of happyCollabs. -/
def happyFinalState : AgentStateValues :=
  { query := "q"
    sessionId := "s"
    queryType := some (.str "factual")
    classificationConfidence := some .nan
    retrievedChunks := some []
    retrievalScore := some 0
    draftAnswer := some "generated answer"
    finalAnswer := some "generated answer"
    qualityScore := some (.num (1/2))
    needsRefinement := some (.bool true)
    refinementReason := none
    currentAgent := some .critic
    iterations := 2
    errors := [] }

/-- The executed-node trace of that run: two generator-critic passes. -/
def happyTrace : List GraphNode :=
  [.classifier, .retriever, .generator, .critic, .generator, .critic]

theorem happyRun_eq :
    runAgentGraph happyCollabs (createInitialState "q" "s") engineFuel =
      some (.ok (happyFinalState, happyTrace)) := by
  unfold runAgentGraph
  rw [show engineFuel = 5 + 1 from rfl,
    runFrom_classifier_ok happyCollabs 5 _ []
      (.ok (.obj [("queryType", .str "factual")])) rfl,
    show (5 : Nat) = 4 + 1 from rfl, runFrom_retriever,
    show (4 : Nat) = 3 + 1 from rfl,
    runFrom_generator_ok happyCollabs 3 _ _ "generated answer" rfl,
    show (3 : Nat) = 2 + 1 from rfl,
    runFrom_critic_ok happyCollabs 2 _ _
      (.ok (.obj [("qualityScore", .num (1/2))])) rfl,
    critiqueParsed_score_obj (1/2) true (by norm_num) (by norm_num) (by norm_num)]
  rw [routeAfterCritic_eval _ (1/2) rfl (by norm_num)]
  rw [if_neg (by norm_num), if_neg (by decide)]
  rw [show (2 : Nat) = 1 + 1 from rfl,
    runFrom_generator_ok happyCollabs 1 _ _ "generated answer" rfl,
    show (1 : Nat) = 0 + 1 from rfl,
    runFrom_critic_ok happyCollabs 0 _ _
      (.ok (.obj [("qualityScore", .num (1/2))])) rfl,
    critiqueParsed_score_obj (1/2) true (by norm_num) (by norm_num) (by norm_num)]
  rw [routeAfterCritic_eval _ (1/2) rfl (by norm_num)]
  rw [if_neg (by norm_num), if_pos (by decide)]
  rfl

/-! ## Claim C1 -/

/-- Claim C1: for every behavior of the collaborator calls the workflow
engine terminates within the fixed fuel; in every terminal state the
iterations field equals the number of critic executions of the run, and that
number never exceeds MAX_ITERATIONS = 2; and when the critique collaborator
returns qualityScore 0.5 on every call, the terminal iterations are exactly
MAX_ITERATIONS. -/
theorem claim_C1_termination_iteration_bound (c : Collaborators) (q sid : String) :
    (runAgentGraph c (createInitialState q sid) engineFuel).isSome ∧
    (∀ fuel s' trace',
      runAgentGraph c (createInitialState q sid) fuel = some (.ok (s', trace')) →
      s'.iterations = trace'.count .critic ∧
      trace'.count .critic ≤ MAX_ITERATIONS) ∧
    ((∀ n, c.critiqueOutcome n =
        .ok (.ok (Json.obj [("qualityScore", Json.num (1/2))]))) →
      ∀ fuel s' trace',
        runAgentGraph c (createInitialState q sid) fuel = some (.ok (s', trace')) →
        s'.iterations = MAX_ITERATIONS) := by
  refine ⟨runAgentGraph_isSome c _, ?_, ?_⟩
  · intro fuel s' trace' h
    obtain ⟨fuel2, p, rfl, hp, hloop⟩ := runAgentGraph_ok_decompose c _ fuel s' trace' h
    obtain ⟨-, -, -, -, -, -, -, -, -, hiter, hbound, -, -, -, -, -⟩ :=
      runFrom_loop_ok fuel2 c .generator _ _ s' trace' (Or.inl rfl) hloop
    have hs2 : (retrieverNode c (classifierApply (classifyParsed p)
        (createInitialState q sid))).iterations = 0 := by
      rw [retrieverNode_iterations]
      rfl
    rw [hs2] at hiter hbound
    have hcount : ([GraphNode.classifier, GraphNode.retriever] :
        List GraphNode).count .critic = 0 := rfl
    rw [hcount] at hiter
    have hmax : max (0 + 1) MAX_ITERATIONS = MAX_ITERATIONS := rfl
    rw [hmax] at hbound
    unfold MAX_ITERATIONS at hbound ⊢
    omega
  · intro hhalf fuel s' trace' h
    obtain ⟨fuel2, p, rfl, hp, hloop⟩ := runAgentGraph_ok_decompose c _ fuel s' trace' h
    obtain ⟨-, -, -, -, -, -, -, -, -, hiter, hbound, hroute, -, -, -, hqual⟩ :=
      runFrom_loop_ok fuel2 c .generator _ _ s' trace' (Or.inl rfl) hloop
    obtain ⟨k, parsed, hk, hqs⟩ := hqual
    rw [hhalf k] at hk
    injection hk with hk2
    subst hk2
    have hcp : (critiqueParsed
        (.ok (Json.obj [("qualityScore", Json.num (1/2))]))).qualityScore
        = JsNum.num (1/2) := by
      rw [critiqueParsed_score_obj (1/2) true (by norm_num) (by norm_num) (by norm_num)]
    rw [hcp] at hqs
    have hs2 : (retrieverNode c (classifierApply (classifyParsed p)
        (createInitialState q sid))).iterations = 0 := by
      rw [retrieverNode_iterations]
      rfl
    rw [hs2] at hbound
    have hmax : max (0 + 1) MAX_ITERATIONS = MAX_ITERATIONS := rfl
    rw [hmax] at hbound
    rw [routeAfterCritic_eval s' (1/2) hqs (by norm_num), if_neg (by norm_num)] at hroute
    by_cases hge : s'.iterations ≥ MAX_ITERATIONS
    · unfold MAX_ITERATIONS at hge hbound ⊢
      omega
    · rw [if_neg hge] at hroute
      cases hroute

/-- Witness for claim C1: the always-0.5 critique behavior terminates with
iterations 2 after exactly 2 critic executions. -/
theorem claim_C1_witness :
    (runAgentGraph happyCollabs (createInitialState "q" "s") engineFuel).isSome ∧
    happyFinalState.iterations = happyTrace.count .critic ∧
    happyTrace.count .critic ≤ MAX_ITERATIONS ∧
    happyFinalState.iterations = MAX_ITERATIONS := by
  obtain ⟨h1, h2, h3⟩ := claim_C1_termination_iteration_bound happyCollabs "q" "s"
  have hb := h2 engineFuel happyFinalState happyTrace happyRun_eq
  exact ⟨h1, hb.1, hb.2, h3 (fun n => rfl) engineFuel _ _ happyRun_eq⟩

/-! ## Claim C2 -/

/-- The termination predicate as the spec states it: the quality score is
defined and at least 0.7 (under the JavaScript comparison), or the iteration
counter has reached MAX_ITERATIONS. -/
def specTerminate (s : AgentStateValues) : Prop :=
  (∃ x, s.qualityScore = some x ∧ jsGe x (.num (7/10)) = true) ∨
    MAX_ITERATIONS ≤ s.iterations

/-- Claim C2: after a critique execution the routing decision equals the spec
predicate - the run ends exactly when the quality score is defined and at
least 0.7 or the iteration counter reached MAX_ITERATIONS, and otherwise the
next node is the generator; the threshold is inclusive: a run whose first
critique parses to qualityScore exactly 0.7 terminates with iterations 1. -/
theorem claim_C2_route_equals_spec_predicate :
    (∀ s : AgentStateValues,
      (routeAfterCritic s = .END ↔ specTerminate s) ∧
      (routeAfterCritic s = .generator ↔ ¬ specTerminate s)) ∧
    (∀ (c : Collaborators) (p : Except JsThrown Json) (g : Nat → String)
        (q sid : String),
      ∃ s' trace',
        runAgentGraph
          { c with
            classifyOutcome := .ok p
            generateOutcome := fun n => .ok (g n)
            critiqueOutcome := fun _ =>
              .ok (.ok (.obj [("qualityScore", .num (7/10))])) }
          (createInitialState q sid) engineFuel = some (.ok (s', trace')) ∧
        s'.iterations = 1 ∧ s'.qualityScore = some (.num (7/10))) := by
  constructor
  · intro s
    have hEND : routeAfterCritic s = .END ↔ specTerminate s := by
      unfold routeAfterCritic specTerminate
      cases hqs : s.qualityScore with
      | none =>
        rw [if_neg (by simp [jsTruthyNum])]
        constructor
        · intro h
          split at h
          · right
            assumption
          · cases h
        · intro h
          rcases h with ⟨x, hx, -⟩ | hit
          · cases hx
          · rw [if_pos hit]
      | some x =>
        cases x with
        | nan =>
          rw [if_neg (by simp [jsTruthyNum])]
          constructor
          · intro h
            split at h
            · right
              assumption
            · cases h
          · intro h
            rcases h with ⟨x, hx, hge⟩ | hit
            · injection hx with hx2
              subst hx2
              simp [jsGe] at hge
            · rw [if_pos hit]
        | num q =>
          by_cases h7 : (7 : ℚ)/10 ≤ q
          · have hq0 : q ≠ 0 := by
              intro h
              rw [h] at h7
              norm_num at h7
            rw [if_pos (by simp [jsTruthyNum, numOrNaN, jsGe, hq0, h7])]
            exact ⟨fun _ => Or.inl ⟨.num q, rfl, by simp [jsGe, h7]⟩, fun _ => rfl⟩
          · rw [if_neg (by simp [jsTruthyNum, numOrNaN, jsGe, h7])]
            constructor
            · intro h
              split at h
              · right
                assumption
              · cases h
            · intro h
              rcases h with ⟨x, hx, hge⟩ | hit
              · injection hx with hx2
                subst hx2
                simp [jsGe] at hge
                exact absurd hge h7
              · rw [if_pos hit]
    have hdi : routeAfterCritic s = .END ∨ routeAfterCritic s = .generator := by
      cases h : routeAfterCritic s
      · exact Or.inl rfl
      · exact Or.inr rfl
    refine ⟨hEND, ?_, ?_⟩
    · intro h hspec
      have h2 := hEND.mpr hspec
      rw [h] at h2
      cases h2
    · intro h
      rcases hdi with hd | hd
      · exact absurd (hEND.mp hd) h
      · exact hd
  · intro c p g q sid
    unfold runAgentGraph
    rw [show engineFuel = 5 + 1 from rfl,
      runFrom_classifier_ok _ 5 _ [] p rfl,
      show (5 : Nat) = 4 + 1 from rfl, runFrom_retriever,
      show (4 : Nat) = 3 + 1 from rfl,
      runFrom_generator_ok _ 3 _ _ (g 0) rfl,
      show (3 : Nat) = 2 + 1 from rfl,
      runFrom_critic_ok _ 2 _ _ (.ok (.obj [("qualityScore", .num (7/10))])) rfl,
      critiqueParsed_score_obj (7/10) false (by norm_num) (by norm_num) (by norm_num)]
    rw [routeAfterCritic_eval _ (7/10) rfl (by norm_num)]
    rw [if_pos (by norm_num)]
    refine ⟨_, _, rfl, ?_, rfl⟩
    simp [criticApply, generatorApply, classifierApply, createInitialState,
      retrieverNode_iterations]

/-! ## Claim C3 -/

/-- Claim C3: an error thrown by the search collaborator is caught inside the
retriever node, which returns exactly the documented fallback update (empty
chunks, score 0, currentAgent retriever, and the errors sequence extended by
one retriever entry carrying the Error message, or the fixed text for a
non-Error thrown value); and a full run in which retrieval is the only
failure still reaches a terminal state whose errors hold exactly that one
retriever entry and whose finalAnswer is set. -/
theorem claim_C3_retrieval_fallback :
    (∀ (c : Collaborators) (s : AgentStateValues) (err : JsThrown),
      retrieverNode { c with searchOutcome := .error err } s =
        { s with
          retrievedChunks := some []
          retrievalScore := some 0
          currentAgent := some .retriever
          errors := s.errors ++
            [{ agent := .retriever
               message := thrownMessage err
               timestamp := c.now }] }) ∧
    (∀ (c : Collaborators) (err : JsThrown) (p : Except JsThrown Json)
        (g : Nat → String) (po : Nat → Except JsThrown Json) (q sid : String),
      ∃ s' trace',
        runAgentGraph
          { c with
            classifyOutcome := .ok p
            searchOutcome := .error err
            generateOutcome := fun n => .ok (g n)
            critiqueOutcome := fun n => .ok (po n) }
          (createInitialState q sid) engineFuel = some (.ok (s', trace')) ∧
        s'.errors =
          [{ agent := .retriever
             message := thrownMessage err
             timestamp := c.now }] ∧
        s'.errors.countP (fun en => en.agent == AgentName.retriever) = 1 ∧
        s'.finalAnswer.isSome = true) := by
  constructor
  · intro c s err
    exact retrieverNode_of_error { c with searchOutcome := .error err } s err rfl
  · intro c err p g po q sid
    obtain ⟨s', trace', hrun⟩ :=
      runAgentGraph_all_ok
        { c with
          classifyOutcome := .ok p
          searchOutcome := .error err
          generateOutcome := fun n => .ok (g n)
          critiqueOutcome := fun n => .ok (po n) }
        (createInitialState q sid) p rfl
        (fun n a h => Except.noConfusion h)
        (fun n a h => Except.noConfusion h)
    obtain ⟨fuel2, p2, hfe, hp2, hloop⟩ :=
      runAgentGraph_ok_decompose _ _ _ s' trace' hrun
    obtain ⟨-, -, herr, -, -, -, -, -, -, -, -, -, -, -, hgen, -⟩ :=
      runFrom_loop_ok fuel2 _ .generator _ _ s' trace' (Or.inl rfl) hloop
    have hso : ({ c with
        classifyOutcome := .ok p
        searchOutcome := .error err
        generateOutcome := fun n => .ok (g n)
        critiqueOutcome := fun n => .ok (po n) } : Collaborators).searchOutcome
        = .error err := rfl
    refine ⟨s', trace', hrun, ?_, ?_, (hgen rfl).1⟩
    · rw [herr, retrieverNode_of_error _ _ err hso]
      cases err <;> rfl
    · rw [herr, retrieverNode_of_error _ _ err hso]
      cases err <;> rfl

/-! ## Claim C4 -/

/-- Claim C4: a transport error thrown by the language-generation
collaborator during classification is caught neither by the step nor by the
engine: classifyQuery propagates the very error, the engine invocation
rejects with it, and the state in which the failure happened still has the
empty initial errors sequence (no entry is recorded). -/
theorem claim_C4_classifier_transport_propagates :
    (∀ (e : JsThrown) (query : String),
      classifyQuery query (.error e) = .error e) ∧
    (∀ (c : Collaborators) (e : JsThrown) (q sid : String) (fuel : Nat),
      runAgentGraph { c with classifyOutcome := .error e }
        (createInitialState q sid) (fuel + 1) = some (.error e)) ∧
    (∀ q sid : String, (createInitialState q sid).errors = []) := by
  refine ⟨fun e query => rfl, ?_, fun q sid => rfl⟩
  intro c e q sid fuel
  unfold runAgentGraph
  rw [runFrom_classifier_error _ fuel _ [] e rfl]

/-! ## Claim C5 -/

/-- Claim C5: in every completed run the classifier and the retriever each
execute exactly once (the back-edge returns only to the generator), and the
terminal queryType is exactly the value the single classification wrote - it
is never overwritten later. -/
theorem claim_C5_classify_retrieve_once (c : Collaborators) (q sid : String) :
    ∀ fuel s' trace',
      runAgentGraph c (createInitialState q sid) fuel = some (.ok (s', trace')) →
      trace'.count .classifier = 1 ∧
      trace'.count .retriever = 1 ∧
      ∃ p, c.classifyOutcome = .ok p ∧
        s'.queryType = (classifyParsed p).queryType := by
  intro fuel s' trace' h
  obtain ⟨fuel2, p, rfl, hp, hloop⟩ := runAgentGraph_ok_decompose c _ fuel s' trace' h
  obtain ⟨-, -, -, hqt, -, -, -, hc1, hc2, -, -, -, -, -, -, -⟩ :=
    runFrom_loop_ok fuel2 c .generator _ _ s' trace' (Or.inl rfl) hloop
  refine ⟨?_, ?_, p, hp, ?_⟩
  · rw [hc1]
    rfl
  · rw [hc2]
    rfl
  · rw [hqt, retrieverNode_queryType]
    rfl

/-- Witness for claim C5 on the concrete deterministic run. -/
theorem claim_C5_witness :
    happyTrace.count .classifier = 1 ∧
    happyTrace.count .retriever = 1 ∧
    happyFinalState.queryType =
      (classifyParsed (.ok (.obj [("queryType", .str "factual")]))).queryType := by
  obtain ⟨h1, h2, p, hp, hqt⟩ :=
    claim_C5_classify_retrieve_once happyCollabs "q" "s" engineFuel
      happyFinalState happyTrace happyRun_eq
  rw [show happyCollabs.classifyOutcome =
      Except.ok (.ok (.obj [("queryType", Json.str "factual")])) from rfl] at hp
  injection hp with hp2
  subst hp2
  exact ⟨h1, h2, hqt⟩

/-! ## Claim C6 -/

/-- Claim C6: every generator execution sets draftAnswer and finalAnswer to
the same collaborator text, unconditionally overwriting previous values, and
in every completed run the terminal finalAnswer equals the terminal
draftAnswer (the most recent draft) and is set. -/
theorem claim_C6_final_equals_draft (c : Collaborators) (g : Nat → String)
    (q sid : String) :
    (∀ (i : Nat) (s : AgentStateValues),
      generatorNode { c with generateOutcome := fun n => .ok (g n) } i s =
        .ok { s with
          draftAnswer := some (g i)
          finalAnswer := some (g i)
          currentAgent := some .generator }) ∧
    (∀ fuel s' trace',
      runAgentGraph c (createInitialState q sid) fuel = some (.ok (s', trace')) →
      s'.finalAnswer = s'.draftAnswer ∧ s'.finalAnswer.isSome = true) := by
  constructor
  · intro i s
    exact generatorNode_of_ok { c with generateOutcome := fun n => .ok (g n) } i s (g i) rfl
  · intro fuel s' trace' h
    obtain ⟨fuel2, p, rfl, hp, hloop⟩ := runAgentGraph_ok_decompose c _ fuel s' trace' h
    obtain ⟨-, -, -, -, -, -, -, -, -, -, -, -, -, -, hgen, -⟩ :=
      runFrom_loop_ok fuel2 c .generator _ _ s' trace' (Or.inl rfl) hloop
    exact ⟨(hgen rfl).2, (hgen rfl).1⟩

/-- Witness for claim C6 on the concrete deterministic run. -/
theorem claim_C6_witness :
    happyFinalState.finalAnswer = happyFinalState.draftAnswer ∧
    happyFinalState.finalAnswer.isSome = true :=
  (claim_C6_final_equals_draft happyCollabs (fun _ => "generated answer") "q" "s").2
    engineFuel happyFinalState happyTrace happyRun_eq

/-! ## Claim C7 -/

/-- Claim C7: whenever the collaborator text cannot be parsed as the expected
structure (JSON.parse throws), classifyQuery returns the default result with
queryType vague, confidence 0.5, and reasoning noting the parse failure,
instead of propagating a parse error. -/
theorem claim_C7_classifier_parse_default :
    (∀ (query : String) (e : JsThrown),
      classifyQuery query (.ok (.error e)) = .ok defaultClassification) ∧
    defaultClassification.queryType = some (.str "vague") ∧
    defaultClassification.confidence = .num (1/2) ∧
    defaultClassification.reasoning =
      some (.str "Failed to parse classification, defaulting to vague") :=
  ⟨fun _ _ => rfl, rfl, rfl, rfl⟩

/-! ## Claim C8 -/

/-- Counterexample to claim C8 as stated: on the parsed object with no
fields at all (the JSON text consisting of an empty object), the refinement
flag is absent, the step reports qualityScore 0.5, and 0.5 is below the 0.7
threshold, yet the returned needsRefinement is false - not the claimed
(reported qualityScore < 0.7) = true, because the code compares the raw,
absent field (undefined < 0.7 is false in JavaScript). -/
theorem claim_C8_counterexample :
    critiqueAnswer { query := "q", answer := "a", sources := [] }
        (.ok (.ok (Json.obj []))) =
      .ok { qualityScore := .num (1/2)
            needsRefinement := .bool false
            refinementReason := none
            scores := defaultScores } ∧
    ((1 : ℚ)/2 < 7/10) ∧
    (critiqueParsed (.ok (Json.obj []))).needsRefinement ≠
      .bool (decide ((1 : ℚ)/2 < 7/10)) := by
  refine ⟨?_, by norm_num, ?_⟩
  · unfold critiqueAnswer critiqueParsed
    simp [jsGetField, lookupField, nullish, toNumber, jsMin, jsMax, jsLt]
    norm_num
  · have hd : decide ((1 : ℚ)/2 < 7/10) = true := by
      simp only [decide_eq_true_eq]
      norm_num
    rw [hd]
    have hnr : (critiqueParsed (.ok (Json.obj []))).needsRefinement = .bool false := by
      unfold critiqueParsed
      simp [jsGetField, lookupField, nullish, toNumber, jsLt]
    rw [hnr]
    simp

/-- Claim C8 amended: for every successfully parsed critique object in which
the refinement flag is absent, needsRefinement is the JavaScript comparison
(raw qualityScore < 0.7) applied to the raw, unclamped field (undefined and
NaN compare false); whenever the raw field is present as a number this
coincides with the claimed (reported qualityScore < 0.7), the clamp never
changing the comparison - but when the field is absent, needsRefinement is
false although the reported score defaults to 0.5. -/
theorem claim_C8_amended (fields : List (String × Json)) (opts : CritiqueOptions)
    (hflag : lookupField fields "needsRefinement" = none) :
    critiqueAnswer opts (.ok (.ok (.obj fields))) =
      .ok (critiqueParsed (.ok (.obj fields))) ∧
    (critiqueParsed (.ok (.obj fields))).needsRefinement =
      .bool (jsLt (toNumber (lookupField fields "qualityScore")) (.num (7/10))) ∧
    (∀ q : ℚ, lookupField fields "qualityScore" = some (.num q) →
      (critiqueParsed (.ok (.obj fields))).qualityScore = .num (min 1 (max 0 q)) ∧
      jsLt (.num q) (.num (7/10)) =
        jsLt ((critiqueParsed (.ok (.obj fields))).qualityScore) (.num (7/10)) ∧
      (critiqueParsed (.ok (.obj fields))).needsRefinement =
        .bool (jsLt ((critiqueParsed (.ok (.obj fields))).qualityScore)
          (.num (7/10)))) := by
  have hder : (critiqueParsed (.ok (.obj fields))).needsRefinement =
      .bool (jsLt (toNumber (lookupField fields "qualityScore")) (.num (7/10))) := by
    unfold critiqueParsed
    simp [jsGetField, hflag, nullish]
  refine ⟨rfl, hder, ?_⟩
  intro q hq
  have hqs : (critiqueParsed (.ok (.obj fields))).qualityScore =
      .num (min 1 (max 0 q)) := by
    unfold critiqueParsed
    simp [jsGetField, hq, nullish, toNumber, jsMin, jsMax]
  have hcmp : jsLt (.num q) (.num (7/10)) =
      jsLt (.num (min 1 (max 0 q))) (.num (7/10)) := by
    simp only [jsLt]
    rw [decide_eq_decide]
    constructor
    · intro h
      have h1 : max 0 q < 7/10 := by
        rw [max_lt_iff]
        exact ⟨by norm_num, h⟩
      calc min 1 (max 0 q) ≤ max 0 q := min_le_right _ _
        _ < 7/10 := h1
    · intro h
      rcases min_lt_iff.mp h with h1 | h1
      · norm_num at h1
      · rcases max_lt_iff.mp h1 with ⟨-, h2⟩
        exact h2
  refine ⟨hqs, ?_, ?_⟩
  · rw [hqs, hcmp]
  · rw [hder, hqs, hq]
    rw [show toNumber (some (Json.num q)) = .num q from rfl, hcmp]

/-- Witness for the amended claim C8 at a present numeric score field. -/
theorem claim_C8_witness :
    (critiqueParsed (.ok (.obj [("qualityScore", Json.num (3/10))]))).needsRefinement =
      .bool (jsLt (toNumber (lookupField [("qualityScore", Json.num (3/10))]
        "qualityScore")) (.num (7/10))) ∧
    jsLt (.num (3/10)) (.num (7/10)) =
      jsLt ((critiqueParsed
        (.ok (.obj [("qualityScore", Json.num (3/10))]))).qualityScore)
        (.num (7/10)) := by
  obtain ⟨-, h2, h3⟩ :=
    claim_C8_amended [("qualityScore", Json.num (3/10))]
      { query := "q", answer := "a", sources := [] } rfl
  exact ⟨h2, (h3 (3/10) rfl).2.1⟩

/-! ## Claim C10 -/

/-- Claim C10: the successful-parse branch of the classifier performs no
structural validation: on the parsed empty object the step returns queryType
undefined (not any string label, in particular not the vague default) and
confidence NaN (not equal to any rational, hence outside [0, 1]), and the
classifier node stores exactly these values in the state. -/
theorem claim_C10_classifier_no_validation :
    classifyQuery "" (.ok (.ok (Json.obj []))) =
      .ok { queryType := none, confidence := .nan, reasoning := none } ∧
    (∀ (c : Collaborators) (s : AgentStateValues),
      classifierNode { c with classifyOutcome := .ok (.ok (Json.obj [])) } s =
        .ok { s with
          queryType := none
          classificationConfidence := some .nan
          currentAgent := some .classifier }) ∧
    (∀ q : ℚ, (JsNum.nan : JsNum) ≠ .num q) ∧
    (∀ label : String, (none : Option Json) ≠ some (.str label)) := by
  refine ⟨rfl, ?_, ?_, ?_⟩
  · intro c s
    exact classifierNode_of_ok { c with classifyOutcome := .ok (.ok (Json.obj [])) }
      s (.ok (Json.obj [])) rfl
  · intro q h
    cases h
  · intro label h
    cases h

/-- Witness for claim C10: the inequalities instantiated at the vague default
and the clamp bounds. -/
theorem claim_C10_witness :
    (JsNum.nan : JsNum) ≠ .num (1/2) ∧
    (none : Option Json) ≠ some (.str "vague") :=
  ⟨(claim_C10_classifier_no_validation).2.2.1 (1/2),
   (claim_C10_classifier_no_validation).2.2.2 "vague"⟩

/-! ## Claim C9 -/

/-- The per-result chunk record built by the retriever (the mapping lambda of
retrieveDocuments, named). -/
def chunkOfResult (r : SearchResult) : RetrievedChunk :=
  { chunkId := r.chunk_id
    content := r.content
    score := r.hybrid_score.getD (r.similarity_score.getD 0)
    metadata := r.metadata }

/-- The chunk score as the spec words it: the provider hybrid score if
present, else the semantic similarity score if present, else 0. -/
def specChunkScore (r : SearchResult) : ℚ :=
  match r.hybrid_score with
  | some h => h
  | none =>
    match r.similarity_score with
    | some s => s
    | none => 0

/-- The arithmetic mean as the spec words it: 0 for an empty list, else the
sum divided by the length. -/
def specMean (xs : List ℚ) : ℚ :=
  if xs = [] then 0 else xs.sum / xs.length

theorem foldl_add_score (l : List RetrievedChunk) :
    ∀ a : ℚ, l.foldl (fun sum c => sum + c.score) a
      = a + (l.map (fun ch => ch.score)).sum := by
  induction l with
  | nil => intro a; simp
  | cons x xs ih =>
    intro a
    simp only [List.foldl_cons, List.map_cons, List.sum_cons]
    rw [ih]
    ring

theorem retrieveDocuments_ok_eq (options : RetrieveOptions)
    (response : HybridSearchResponse) :
    retrieveDocuments options (.ok response) =
      .ok { chunks := (response.results.getD []).map chunkOfResult
            score :=
              if ((response.results.getD []).map chunkOfResult).length > 0 then
                (((response.results.getD []).map chunkOfResult).foldl
                  (fun sum c => sum + c.score) 0) /
                  ((response.results.getD []).map chunkOfResult).length
              else 0
            queryTimeMs := response.query_time_ms.getD 0 } := rfl

theorem fold_score_eq_specMean (l : List RetrievedChunk) :
    (if l.length > 0 then
      (l.foldl (fun sum c => sum + c.score) (0 : ℚ)) / (l.length : ℚ) else 0)
      = specMean (l.map (fun ch => ch.score)) := by
  cases l with
  | nil => simp [specMean]
  | cons x xs =>
    rw [if_pos (by simp), specMean, if_neg (by simp), foldl_add_score]
    simp

/-- Claim C9: on every successful search response the retrieval step maps
each result to a chunk scored by the hybrid score, else the similarity score,
else 0, and reports the arithmetic mean of the chunk scores as the retrieval
score, 0 for an empty result list. -/
theorem claim_C9_retrieval_mean (options : RetrieveOptions)
    (response : HybridSearchResponse) :
    retrieveDocuments options (.ok response) =
      .ok { chunks := (response.results.getD []).map chunkOfResult
            score := specMean (((response.results.getD []).map chunkOfResult).map
              (fun ch => ch.score))
            queryTimeMs := response.query_time_ms.getD 0 } ∧
    (∀ r : SearchResult,
      (chunkOfResult r).score = specChunkScore r ∧
      (chunkOfResult r).chunkId = r.chunk_id ∧
      (chunkOfResult r).content = r.content ∧
      (chunkOfResult r).metadata = r.metadata) ∧
    (response.results.getD [] = [] →
      retrieveDocuments options (.ok response) =
        .ok { chunks := []
              score := 0
              queryTimeMs := response.query_time_ms.getD 0 }) := by
  refine ⟨?_, ?_, ?_⟩
  · rw [retrieveDocuments_ok_eq, fold_score_eq_specMean]
  · intro r
    refine ⟨?_, rfl, rfl, rfl⟩
    unfold chunkOfResult specChunkScore
    cases r.hybrid_score with
    | none =>
      cases r.similarity_score with
      | none => rfl
      | some s => rfl
    | some h => rfl
  · intro hempty
    rw [retrieveDocuments_ok_eq, hempty]
    rfl

/-- Witness for claim C9 at an empty result list and at a concrete result. -/
theorem claim_C9_witness :
    retrieveDocuments { query := "q" } (.ok { results := some [] }) =
      .ok { chunks := [], score := 0, queryTimeMs := 0 } ∧
    (chunkOfResult { chunk_id := "c", content := "t", similarity_score := some 3 }).score
      = specChunkScore { chunk_id := "c", content := "t", similarity_score := some 3 } := by
  obtain ⟨-, h2, h3⟩ :=
    claim_C9_retrieval_mean { query := "q" }
      ({ results := some [] } : HybridSearchResponse)
  exact ⟨h3 rfl,
    (claim_C9_retrieval_mean { query := "q" }
      ({ results := some [] } : HybridSearchResponse)).2.1
      { chunk_id := "c", content := "t", similarity_score := some 3 } |>.1⟩

end Pipeline
